import Mathlib

/-
Verification of the Spritify render post-processing add-on
(src/spritify.py) against its specification.

Embedding conventions, chosen so that every definition is executable and
kernel-reducible:

* Python strings are sequences of code points, embedded as `List Char`
  (`PyStr`).  String literals of the embedding are written `"...".data`.
  Python string comparison is lexicographic on code points, which is the
  lexicographic order on `List Char`.  `str.lower` is modelled for the
  ASCII range, the only range exercised by the file names involved.
* Python integers are `Int` (`Nat` where the source value is a length or
  an index that stays non-negative).
* Python floats are embedded as exact rationals `ℚ`: every arithmetic
  step performed by the source on the claim inputs is exact in binary
  floating point, and `str` of a float whose value is an integer n is
  the decimal digits of n followed by ".0".  For non-integral values
  with a terminating decimal expansion the shortest-decimal rule of
  Python float printing yields that expansion, which is what
  `pyFloatStr` produces; values without a terminating expansion are
  outside the model (none is reached by the claims).
* `math.ceil(a / b)` on integers is the exact ceiling of the rational
  a / b, embedded as `ceilDiv` over `Int` and proved equal to
  `⌈(a : ℚ) / b⌉` in `ceilDiv_eq_ceil`.
* Filesystem state is passed explicitly: the walked directory tree is a
  list of (dirname, filenames) pairs in walk order, a directory listing
  is a list of (name, is-regular-file) entries in listing order, and
  the existence checks `os.path.isfile` consulted by the code are
  boolean inputs.  Raising an exception is modelled by returning an
  error value; external `subprocess.call` invocations are modelled by
  the list of argument vectors the run would pass, in order.
-/

namespace Spritify

/-- Python strings, as sequences of code points. -/
abbrev PyStr := List Char

/-- Decimal digits of a natural number, as `str` prints them. -/
def natChars (n : Nat) : PyStr := Nat.toDigits 10 n

/-- Decimal form of a Python int: a leading minus sign for negatives. -/
def intChars (i : Int) : PyStr :=
  if i < 0 then '-' :: natChars i.natAbs else natChars i.toNat

/-- Form that `str` gives a Python float holding the exact rational q.
An integral value prints as its digits followed by ".0".  A value with
a terminating decimal expansion prints that expansion (the shortest
round-tripping decimal of an exactly-represented float).  A value whose
exact decimal does not terminate within float precision is outside the
model and is rendered "num/den"; no claim reaches that branch. -/
def pyFloatStr (q : ℚ) : PyStr :=
  if q.den = 1 then intChars q.num ++ '.' :: ['0']
  else
    match (List.range 18).find? (fun k => q.den ∣ 10 ^ (k + 1)) with
    | some k =>
      let e := k + 1
      let digits := natChars (q.num.natAbs * (10 ^ e / q.den))
      let digits := if digits.length ≤ e then
        List.replicate (e + 1 - digits.length) '0' ++ digits else digits
      (if q.num < 0 then ['-'] else []) ++
        digits.take (digits.length - e) ++ '.' :: digits.drop (digits.length - e)
    | none => intChars q.num ++ '/' :: natChars q.den

/-- Python `sorted` on strings: a stable ascending sort under the
lexicographic code-point order, here insertion sort, which produces
the same list. -/
def pySorted (l : List PyStr) : List PyStr := List.insertionSort (· ≤ ·) l

/-- Python `str.endswith`. -/
def pyEndsWith (s suffix : PyStr) : Bool := suffix.isSuffixOf s

/-- Python `str.startswith`. -/
def pyStartsWith (s pre : PyStr) : Bool := pre.isPrefixOf s

/-- Python `str.lower` on one code point, for the ASCII range the file
names of this program use. -/
def pyCharLower (c : Char) : Char :=
  if 'A' ≤ c ∧ c ≤ 'Z' then Char.ofNat (c.toNat + 32) else c

/-- Python `str.lower`. -/
def pyLower (s : PyStr) : PyStr := s.map pyCharLower

/-- Python slicing s[:-n]: all but the last n code points. -/
def pyDropRight (s : PyStr) (n : Nat) : PyStr := s.take (s.length - n)

/-- Python slicing s[-n:]: the last n code points. -/
def pyTakeRight (s : PyStr) (n : Nat) : PyStr := s.drop (s.length - n)

/-- POSIX `os.path.join` for two components: an absolute second
component replaces the first; otherwise the parts are joined with a
separator unless the first already ends in one or is empty. -/
def pathJoin (d f : PyStr) : PyStr :=
  if pyStartsWith f ['/'] then f
  else if d = [] then f
  else if pyEndsWith d ['/'] then d ++ f
  else d ++ '/' :: f

/-- Exact value of `math.ceil(n / f)` for a length n and a Python int
f (spritify.py:196).  Euclidean division by a positive f rounds down,
so the ceiling is -((-n) / f); Euclidean division by a negative f
already rounds up.  Python raises ZeroDivisionError at f = 0; the
theorems that depend on the division take f ≠ 0. -/
def ceilDiv (n : Nat) (f : Int) : Int :=
  if 0 ≤ f then -((-(n : Int)) / f) else (n : Int) / f

/-- Failures spritify and gifify raise, by the condition that raises
them: FileNotFoundError for an empty frame set (spritify.py:200-207,
361-370), ValueError for a non-positive batch size (spritify.py:210-212),
FileNotFoundError for a missing external binary (spritify.py:256-263,
322-328). -/
inductive SpritifyError where
  | noFramesFound
  | invalidPartition
  | toolNotFound
deriving DecidableEq

/-- Consecutive slices images[offset:offset+per_file] taken by the
while loop of spritify.py:214-286, offset advancing by per_file each
iteration.  The per_file = 0 guard mirrors the infinite-loop hazard the
ValueError at spritify.py:210-212 exists to prevent: the loop would
never terminate there, and callers never reach that branch. -/
def batches {α : Type} (images : List α) (per_file : Nat) : List (List α) :=
  if hp : per_file = 0 then []
  else if h : images.isEmpty then []
  else images.take per_file :: batches (images.drop per_file) per_file
termination_by images.length
decreasing_by
  have h1 : 0 < images.length := by
    cases images with
    | nil => simp at h
    | cons a l => simp
  simp only [List.length_drop]
  omega

/-- Frame-count check and batch partitioning of spritify.py:196-215:
per_file = ceil(len(images) / files); FileNotFoundError when there are
no images, ValueError when per_file < 1, otherwise the emitted batches. -/
def partitionFrames (images : List PyStr) (files : Int) :
    Except SpritifyError (List (List PyStr)) :=
  let per_file := ceilDiv images.length files
  if images.length < 1 then .error .noFramesFound
  else if per_file < 1 then .error .invalidPartition
  else .ok (batches images per_file.toNat)

/-- One directory yielded by `os.walk`: its path and the file names it
holds, in the order the walk yields them. -/
structure WalkDir where
  dirname : PyStr
  filenames : List PyStr

/-- Pattern the frame filter matches: "%s.png" % suffix
(spritify.py:192). -/
def pngSuffix (suffix : PyStr) : PyStr := suffix ++ ".png".data

/-- Frame file names one walked directory contributes, in emission
order (spritify.py:191-193): its file names sorted, kept when they end
in the suffix pattern. -/
def dirFrameNames (d : WalkDir) (suffix : PyStr) : List PyStr :=
  (pySorted d.filenames).filter (fun fn => pyEndsWith fn (pngSuffix suffix))

/-- Frame collection of spritify.py:188-193: walk the render directory
tree and append, per directory in walk order, the matching file names
joined onto the directory path. -/
def collectFrames (tree : List WalkDir) (suffix : PyStr) : List PyStr :=
  tree.flatMap (fun d => (dirFrameNames d suffix).map (pathJoin d.dirname))

/-- File-name parts of the collected frame list, in the same order the
collection appends them. -/
def collectFrameNames (tree : List WalkDir) (suffix : PyStr) : List PyStr :=
  tree.flatMap (fun d => dirFrameNames d suffix)

/-- Render settings the geometry computation reads
(spritify.py:231-240): resolution, percentage scale, and the optional
crop-to-border bounds (floats in 0..1). -/
structure RenderSettings where
  resolution_x : Int
  resolution_y : Int
  resolution_percentage : Int
  use_crop_to_border : Bool
  border_min_x : ℚ
  border_max_x : ℚ
  border_min_y : ℚ
  border_max_y : ℚ

/-- Effective sheet tile width (spritify.py:231-238): true division by
100, then optional crop scaling.  The division is Python float
division, exact over ℚ for the values the claims evaluate. -/
def renderWidth (r : RenderSettings) : ℚ :=
  let w : ℚ := r.resolution_x * r.resolution_percentage / 100
  if r.use_crop_to_border then r.border_max_x * w - r.border_min_x * w else w

/-- Effective sheet tile height (spritify.py:233-240). -/
def renderHeight (r : RenderSettings) : ℚ :=
  let h : ℚ := r.resolution_y * r.resolution_percentage / 100
  if r.use_crop_to_border then r.border_max_y * h - r.border_min_y * h else h

/-- Geometry argument of spritify.py:249-254, the format string
whose four slots receive width, height, offset_x and offset_y: width
and height are floats, the offsets Python ints. -/
def geometryString (width height : ℚ) (offset_x offset_y : Int) : PyStr :=
  pyFloatStr width ++ 'x' ::
    (pyFloatStr height ++ '+' :: (intChars offset_x ++ '+' :: intChars offset_y))

/-- Background argument of spritify.py:241-248: the literal text rgba(
followed by str of each colour component times 100, separated by
commas, closed by a parenthesis. -/
def backgroundString (r g b a : ℚ) : PyStr :=
  "rgba(".data ++ pyFloatStr (r * 100) ++ ',' ::
    (pyFloatStr (g * 100) ++ ',' ::
      (pyFloatStr (b * 100) ++ ',' :: (pyFloatStr (a * 100) ++ [')'])))

/-- Comma-joined concatenation, used to state claim C10's reading of
the background string. -/
def joinComma : List PyStr → PyStr
  | [] => []
  | [s] => s
  | s :: rest => s ++ ',' :: joinComma rest

/-- Background string as claim C10 words it: rgba( then the four
components each multiplied by 100, joined by commas, then ). -/
def backgroundStringSpec (r g b a : ℚ) : PyStr :=
  "rgba(".data ++
    joinComma [pyFloatStr (r * 100), pyFloatStr (g * 100),
      pyFloatStr (b * 100), pyFloatStr (a * 100)] ++ [')']

/-- Sprite-sheet settings the montage loop reads
(SpriteSheetProperties, spritify.py:46-104), restricted to the fields
the modelled paths consult. -/
structure SheetSettings where
  filepath : PyStr
  imagemagick_path : PyStr
  quality : Int
  is_rows : Bool
  tiles : Int
  files : Int

/-- Tile arrangement string of spritify.py:171-174: the tile count and
an x, ordered by the rows/columns mode. -/
def tileSetting (s : SheetSettings) : PyStr :=
  if s.is_rows then intChars s.tiles ++ ['x'] else 'x' :: intChars s.tiles

/-- Resolved montage binary path, os.path.join(bin_path, "montage")
(spritify.py:255), on the non-Windows branch where bin_path is the
configured ImageMagick path. -/
def montagePath (s : SheetSettings) : PyStr :=
  pathJoin s.imagemagick_path "montage".data

/-- Per-batch output filename of spritify.py:216-224: with more than
one file the stem gets -index-suffix inserted before the 4-character
extension, otherwise just the suffix. -/
def batchFilename (s : SheetSettings) (index : Nat) (suffix : PyStr) : PyStr :=
  if s.files > 1 then
    pyDropRight s.filepath 4 ++ '-' ::
      (intChars index ++ '-' :: (suffix ++ pyTakeRight s.filepath 4))
  else pyDropRight s.filepath 4 ++ suffix ++ pyTakeRight s.filepath 4

/-- Body of the while loop of spritify.py:214-286 viewed as the montage
invocations it performs: per batch, the montage existence check of
spritify.py:256-263 runs before the subprocess call, so a missing
binary raises FileNotFoundError on the first iteration with no call
made.  The geometry and background arguments are loop-invariant in the
source and are passed in here.  The result pairs the argument vectors
called, in order, with the error that ended the loop, if any. -/
def runMontageLoop (s : SheetSettings) (montage_is_file : Bool)
    (suffix geometry background : PyStr) (index : Nat)
    (bs : List (List PyStr)) : List (List PyStr) × Option SpritifyError :=
  match bs with
  | [] => ([], none)
  | b :: rest =>
    if montage_is_file = false then ([], some .toolNotFound)
    else
      let destination := batchFilename s index suffix
      let call := [montagePath s, "-depth".data, "8".data, "-tile".data,
        tileSetting s, "-geometry".data, geometry, "-background".data,
        background, "-quality".data, intChars s.quality] ++ b ++ [destination]
      let next := runMontageLoop s montage_is_file suffix geometry background
        (index + 1) rest
      (call :: next.1, next.2)

/-- Result dictionary a run hands back to the operator layer: a
message key on success, an error key on failure. -/
inductive RunResult where
  | message (s : PyStr)
  | error (s : PyStr)
deriving DecidableEq

/-- Whether a result is the error form. -/
def RunResult.isError : RunResult → Bool
  | .error _ => true
  | .message _ => false

/-- Post-invocation success decision of spritify.py:287-296.  The
subprocess return code, bound to result at spritify.py:282 and noted
there to be unreliable, is taken as a parameter and never consulted:
only the existence of the destination file decides the outcome, and
both outcomes are returned values, not exceptions. -/
def spritifyOutcome (result : Int) (destination_is_file : Bool)
    (destination : PyStr) : RunResult :=
  if destination_is_file then
    .message ("Spritify finished writing auto_sprite \"".data ++
      destination ++ "\".".data)
  else
    .error ("Spritify failed to write auto_sprite \"".data ++
      destination ++ "\".".data)

/-- Post-invocation success decision of gifify, spritify.py:396-403:
same shape as the spritify one; the convert return code is discarded
by the source and ignored here. -/
def gififyOutcome (result : Int) (destination_is_file : Bool)
    (destination : PyStr) : RunResult :=
  if destination_is_file then
    .message ("Spritify finished writing auto_gif \"".data ++
      destination ++ "\".".data)
  else
    .error ("Spritify failed to create auto_gif \"".data ++
      destination ++ "\".".data)

/-- One entry of os.listdir on the render output directory, with
whether os.path.isfile holds of its joined path. -/
structure DirEntry where
  name : PyStr
  is_file : Bool
deriving DecidableEq

/-- Skip conditions of the staging loop, spritify.py:343-352: hidden
entries, .tmp files, .txt files and anything that is not a .png are
left in place (extension checks on the lowercased name). -/
def stagingSkip (sub : PyStr) : Bool :=
  pyStartsWith sub ['.'] || pyEndsWith (pyLower sub) ".tmp".data ||
    pyEndsWith (pyLower sub) ".txt".data ||
    !pyEndsWith (pyLower sub) ".png".data

/-- Staging loop of gifify, spritify.py:341-359, over the directory
listing in order: entries that match a skip condition, or are not
regular files, stay; at the first remaining entry the loop moves it
into the scratch directory, records it as found_any_file and breaks.
Result: (entries still in the directory, names moved into the scratch
directory, found_any_file). -/
def stageFrames (entries : List DirEntry) :
    List DirEntry × List PyStr × Option PyStr :=
  match entries with
  | [] => ([], [], none)
  | e :: rest =>
    if stagingSkip e.name then
      let next := stageFrames rest
      (e :: next.1, next.2.1, next.2.2)
    else if e.is_file = false then
      let next := stageFrames rest
      (e :: next.1, next.2.1, next.2.2)
    else (rest, [e.name], some e.name)

/-- Inputs of one gifify run (spritify.py:301-403): configured paths,
scene fps, the directory listing, and the isfile answers the run
observes.  mixed_files_path is the directory part of the render
filepath, render_abspath its absolute form. -/
structure GifEnv where
  imagemagick_path : PyStr
  mixed_files_path : PyStr
  render_abspath : PyStr
  sheet_filepath : PyStr
  fps : Int
  converter_is_file : Bool
  entries : List DirEntry
  convert_exit_code : Int
  gif_is_file_after : Bool

/-- How a gifify run ends: an exception raised, or a result returned. -/
inductive GifOutcome where
  | raised (e : SpritifyError)
  | returned (r : RunResult)
deriving DecidableEq

/-- Resolved convert binary, "%s/convert" % imagemagick_path
(spritify.py:312), whose existence spritify.py:322-328 checks. -/
def converterPath (e : GifEnv) : PyStr :=
  e.imagemagick_path ++ "/convert".data

/-- Scratch directory os.path.join(mixed_files_path, "spritify")
(spritify.py:337), destroyed if present and remade before staging
(spritify.py:338-340). -/
def convertTmpDir (e : GifEnv) : PyStr :=
  pathJoin e.mixed_files_path "spritify".data

/-- One gifify run (spritify.py:301-403) as the subprocess argument
vectors it issues paired with how it ends.  The convert existence
check precedes everything else; the staging loop then feeds the
found_any_file check; the single convert invocation of
spritify.py:383-395 passes, in order, the scratch directory path as
the program, the delay, dispose and loop options, the glob source and
the destination; the outcome is decided by the destination check of
spritify.py:396-403.  The scratch directory just remade at
spritify.py:340 satisfies the isdir re-check at spritify.py:378, and
the pre-removal of an existing gif only touches the destination before
the call. -/
def gififyRun (e : GifEnv) : List (List PyStr) × GifOutcome :=
  if e.converter_is_file = false then ([], .raised .toolNotFound)
  else
    match (stageFrames e.entries).2.2 with
    | none => ([], .raised .noFramesFound)
    | some _ =>
      let delay := "1x".data ++ intChars e.fps
      let source := e.render_abspath ++ ['*']
      let destination := pyDropRight e.sheet_filepath 3 ++ "gif".data
      let call := [convertTmpDir e, "-delay".data, delay, "-dispose".data,
        "background".data, "-loop".data, "0".data, source, destination]
      ([call], .returned
        (gififyOutcome e.convert_exit_code e.gif_is_file_after destination))

/-- Render settings of claim C3: 1920x1080 at 100 percent, no crop. -/
def fullHD : RenderSettings :=
  ⟨1920, 1080, 100, false, 0, 1, 0, 1⟩

/-- Six frame paths, the concrete input of claim C2. -/
def sixFrames : List PyStr :=
  ["f1".data, "f2".data, "f3".data, "f4".data, "f5".data, "f6".data]

/-- Seventeen frame paths, the worked example of claim C7. -/
def seventeenFrames : List PyStr :=
  ["f01".data, "f02".data, "f03".data, "f04".data, "f05".data, "f06".data,
   "f07".data, "f08".data, "f09".data, "f10".data, "f11".data, "f12".data,
   "f13".data, "f14".data, "f15".data, "f16".data, "f17".data]

/-- Walked tree of claim C5's counterexample: directory a holding
z.png, then directory b holding a.png. -/
def twoDirTree : List WalkDir :=
  [⟨"a".data, ["z.png".data]⟩, ⟨"b".data, ["a.png".data]⟩]

/-- Listing of claim C4's failing input: two ordinary frame files. -/
def twoFrameListing : List DirEntry :=
  [⟨"0001.png".data, true⟩, ⟨"0002.png".data, true⟩]

/-- Gifify environment of claim C8's failing input. -/
def gifEnvEx : GifEnv :=
  ⟨"/usr/bin".data, "/renders".data, "/renders/frame_".data,
   "/out/sprites.png".data, 24, true,
   [⟨"frame_0001.png".data, true⟩], 1, true⟩

/-- Sheet settings of claim C9's witness. -/
def sheetEx : SheetSettings :=
  ⟨"/out/sprites.png".data, "/usr/bin".data, 100, true, 8, 1⟩

/-- Gifify environment of claim C9's witness: the convert binary path
is not a file. -/
def gifEnvNoTool : GifEnv :=
  ⟨"/usr/bin".data, "/renders".data, "/renders/frame_".data,
   "/out/sprites.png".data, 24, false,
   [⟨"frame_0001.png".data, true⟩], 1, false⟩

/-- Sanity anchor for the `ceilDiv` embedding: it is the exact ceiling
of the rational quotient, the value math.ceil returns on n / f. -/
theorem ceilDiv_eq_ceil (n : Nat) (f : Int) (hf : f ≠ 0) :
    ceilDiv n f = ⌈(n : ℚ) / (f : ℚ)⌉ := by
  rcases lt_trichotomy f 0 with hneg | hzero | hpos
  · obtain ⟨d, rfl⟩ : ∃ d : Nat, f = -(d : Int) := ⟨f.natAbs, by omega⟩
    rw [ceilDiv, if_neg (by omega)]
    rw [show ((n : ℚ) / ((-(d : Int) : Int) : ℚ)) =
        -(((n : Int) : ℚ) / ((d : ℕ) : ℚ)) by push_cast; ring]
    rw [Int.ceil_neg, Rat.floor_intCast_div_natCast, Int.ediv_neg]
  · exact absurd hzero hf
  · obtain ⟨d, rfl⟩ : ∃ d : Nat, f = (d : Int) := ⟨f.toNat, by omega⟩
    rw [ceilDiv, if_pos (by omega)]
    rw [show ((n : ℚ) / (((d : Int) : Int) : ℚ)) =
        -((((-(n : Int)) : Int) : ℚ) / ((d : ℕ) : ℚ)) by push_cast; ring]
    rw [Int.ceil_neg, Rat.floor_intCast_div_natCast]

theorem ceilDiv_zero_left (f : Int) : ceilDiv 0 f = 0 := by
  rw [ceilDiv]
  split <;> simp

theorem one_le_ceilDiv (n : Nat) (f : Int) (h1 : 1 ≤ f) (h2 : f ≤ (n : Int)) :
    1 ≤ ceilDiv n f := by
  rw [ceilDiv, if_pos (by omega)]
  have key : (-(n : Int)) / f ≤ (-f) / f := Int.ediv_le_ediv (by omega) (by omega)
  have hself : (-f) / f = -1 := by
    rw [show (-f) = (-1) * f by ring, Int.mul_ediv_cancel _ (by omega)]
  omega

/-- Ceiling division written with Euclidean (floor) division, for a
positive divisor. -/
theorem neg_ediv_neg_eq (a p : Int) (hp : 0 < p) :
    -((-a) / p) = (a + p - 1) / p := by
  obtain ⟨q, r, hr0, hrp, hqr⟩ : ∃ q r, 0 ≤ r ∧ r < p ∧ a = p * q + r :=
    ⟨a / p, a % p, Int.emod_nonneg a (by omega), Int.emod_lt_of_pos a hp,
     (Int.ediv_add_emod a p).symm⟩
  subst hqr
  rcases eq_or_lt_of_le hr0 with hr | hr1
  · rw [← hr, add_zero]
    rw [show -(p * q) = (-q) * p by ring, Int.mul_ediv_cancel _ (by omega)]
    rw [show p * q + p - 1 = (p - 1) + q * p by ring,
      Int.add_mul_ediv_right _ _ (show p ≠ 0 by omega),
      Int.ediv_eq_zero_of_lt (by omega) (by omega)]
    ring
  · rw [show -(p * q + r) = (p - r) + (-(q + 1)) * p by ring,
      Int.add_mul_ediv_right _ _ (show p ≠ 0 by omega),
      Int.ediv_eq_zero_of_lt (by omega) (by omega)]
    rw [show p * q + r + p - 1 = (r - 1) + (q + 1) * p by ring,
      Int.add_mul_ediv_right _ _ (show p ≠ 0 by omega),
      Int.ediv_eq_zero_of_lt (by omega) (by omega)]
    ring

/-- Value of `ceilDiv` at a positive natural divisor, as the familiar
natural-number formula. -/
theorem ceilDiv_natCast (n p : Nat) (hp : p ≠ 0) :
    ceilDiv n (p : Int) = (((n + p - 1) / p : Nat) : Int) := by
  rw [ceilDiv, if_pos (by omega)]
  rw [neg_ediv_neg_eq _ _ (by omega)]
  have hcast : ((n + p - 1 : Nat) : Int) = (n : Int) + (p : Int) - 1 := by omega
  rw [Int.natCast_ediv, ← hcast]
  rfl

theorem batches_flatten {α : Type} (images : List α) (per_file : Nat)
    (hp : per_file ≠ 0) : (batches images per_file).flatten = images := by
  induction images, per_file using batches.induct with
  | case1 images => exact absurd rfl hp
  | case2 images per_file h1 h2 =>
    rw [batches, dif_neg h1, dif_pos h2]
    simp only [List.isEmpty_iff] at h2
    simp [h2]
  | case3 images per_file h1 h2 ih =>
    rw [batches, dif_neg h1, dif_neg h2]
    simp only [List.flatten_cons]
    rw [ih h1, List.take_append_drop]

theorem batches_eq_nil_iff {α : Type} (images : List α) (per_file : Nat)
    (hp : per_file ≠ 0) : batches images per_file = [] ↔ images = [] := by
  constructor
  · intro h
    by_contra hne
    rw [batches, dif_neg hp,
      dif_neg (by simpa [List.isEmpty_iff] using hne)] at h
    exact List.cons_ne_nil _ _ h
  · intro h
    rw [batches, dif_neg hp, dif_pos (by simp [h])]

theorem batches_length {α : Type} (images : List α) (per_file : Nat)
    (hp : per_file ≠ 0) :
    (batches images per_file).length =
      (images.length + per_file - 1) / per_file := by
  induction images, per_file using batches.induct with
  | case1 images => exact absurd rfl hp
  | case2 images per_file h1 h2 =>
    rw [batches, dif_neg h1, dif_pos h2]
    simp only [List.isEmpty_iff] at h2
    subst h2
    simp [Nat.div_eq_of_lt (show per_file - 1 < per_file by omega)]
  | case3 images per_file h1 h2 ih =>
    rw [batches, dif_neg h1, dif_neg h2]
    simp only [List.length_cons, List.length_drop] at ih ⊢
    rw [ih h1]
    have hlen : 0 < images.length := by
      cases images with
      | nil => simp at h2
      | cons a l => simp
    rcases le_or_lt per_file images.length with hle | hlt
    · have e1 : images.length - per_file + per_file - 1 =
        images.length - 1 := by omega
      have e2 : images.length + per_file - 1 =
        (images.length - 1) + per_file := by omega
      rw [e1, e2, Nat.add_div_right _ (by omega)]
    · have e1 : images.length - per_file = 0 := by omega
      rw [e1, Nat.div_eq_of_lt (show 0 + per_file - 1 < per_file by omega)]
      have e2 : images.length + per_file - 1 =
        (images.length - 1) + per_file := by omega
      rw [e2, Nat.add_div_right _ (by omega),
        Nat.div_eq_of_lt (show images.length - 1 < per_file by omega)]

theorem batches_mem_ne_nil {α : Type} (images : List α) (per_file : Nat)
    (hp : per_file ≠ 0) (b : List α) (hb : b ∈ batches images per_file) :
    b ≠ [] := by
  induction images, per_file using batches.induct with
  | case1 images => exact absurd rfl hp
  | case2 images per_file h1 h2 =>
    rw [batches, dif_neg h1, dif_pos h2] at hb
    simp at hb
  | case3 images per_file h1 h2 ih =>
    rw [batches, dif_neg h1, dif_neg h2] at hb
    rcases List.mem_cons.mp hb with rfl | hb2
    · have hlen : 0 < images.length := by
        cases images with
        | nil => simp at h2
        | cons a l => simp
      simp only [ne_eq, ← List.length_eq_zero, List.length_take]
      omega
    · exact ih h1 hb2

theorem batches_mem_length_le {α : Type} (images : List α) (per_file : Nat)
    (hp : per_file ≠ 0) (b : List α) (hb : b ∈ batches images per_file) :
    b.length ≤ per_file := by
  induction images, per_file using batches.induct with
  | case1 images => exact absurd rfl hp
  | case2 images per_file h1 h2 =>
    rw [batches, dif_neg h1, dif_pos h2] at hb
    simp at hb
  | case3 images per_file h1 h2 ih =>
    rw [batches, dif_neg h1, dif_neg h2] at hb
    rcases List.mem_cons.mp hb with rfl | hb2
    · rw [List.length_take]
      omega
    · exact ih h1 hb2

theorem batches_dropLast_length {α : Type} (images : List α) (per_file : Nat)
    (hp : per_file ≠ 0) (b : List α)
    (hb : b ∈ (batches images per_file).dropLast) : b.length = per_file := by
  induction images, per_file using batches.induct with
  | case1 images => exact absurd rfl hp
  | case2 images per_file h1 h2 =>
    rw [batches, dif_neg h1, dif_pos h2] at hb
    simp at hb
  | case3 images per_file h1 h2 ih =>
    rw [batches, dif_neg h1, dif_neg h2] at hb
    rcases hrest : batches (List.drop per_file images) per_file with _ | ⟨c, cs⟩
    · rw [hrest] at hb
      simp at hb
    · rw [hrest, List.dropLast_cons₂] at hb
      rcases List.mem_cons.mp hb with rfl | hb2
      · have hdrop : List.drop per_file images ≠ [] := by
          intro hcon
          rw [hcon] at hrest
          rw [batches, dif_neg h1, dif_pos (by simp)] at hrest
          exact List.cons_ne_nil _ _ hrest.symm
        have hlt : per_file < images.length := by
          by_contra hcon
          exact hdrop (List.drop_eq_nil_of_le (by omega))
        rw [List.length_take]
        omega
      · rw [← hrest] at hb2
        exact ih h1 hb2

/-- C1: with per_file = ceil(N / F) at least 1, the partitioning
succeeds and concatenating its consecutive batches in order yields
exactly the original ordered frame list, each frame once. -/
theorem partition_reassembles_frames (images : List PyStr) (files : Int)
    (h : 1 ≤ ceilDiv images.length files) :
    ∃ bs, partitionFrames images files = Except.ok bs ∧
      bs.flatten = images := by
  have hne : images.length ≠ 0 := by
    intro h0
    rw [h0, ceilDiv_zero_left] at h
    omega
  refine ⟨batches images (ceilDiv images.length files).toNat, ?_, ?_⟩
  · simp only [partitionFrames]
    rw [if_neg (by omega), if_neg (by omega)]
  · exact batches_flatten _ _ (by omega)

/-- C1 witness: six frames into four files, per_file = 2. -/
theorem partition_reassembles_frames_witness :
    ∃ bs, partitionFrames sixFrames 4 = Except.ok bs ∧
      bs.flatten = sixFrames :=
  partition_reassembles_frames sixFrames 4 (by decide)

/-- C2 as stated is false: six frames into four files gives
per_file = ceil(6/4) = 2 and the loop emits three batches, not
ceil(N/F) = 2; the count it emits is ceil(N/per_file) = 3. -/
theorem batch_count_counterexample :
    ceilDiv 6 4 = 2 ∧
    partitionFrames sixFrames 4 = Except.ok
      [["f1".data, "f2".data], ["f3".data, "f4".data],
       ["f5".data, "f6".data]] ∧
    (3 : Int) ≠ ceilDiv 6 4 := by
  refine ⟨by decide, ?_, by decide⟩
  have h6 : sixFrames.length = 6 := rfl
  simp only [partitionFrames, h6]
  rw [if_neg (by decide), if_neg (by decide),
    show (ceilDiv 6 4).toNat = 2 by decide]
  simp [batches, sixFrames]

/-- C2 amended: for N at least 1 and F nonzero, when
per_file = ceil(N/F) is at least 1 the loop terminates with exactly
ceil(N / per_file) batches, and when per_file < 1 it raises the
ValueError before emitting any batch. -/
theorem batch_count_eq_ceil_by_per_file (images : List PyStr) (files : Int)
    (hN : 1 ≤ images.length) (hf : files ≠ 0) :
    (1 ≤ ceilDiv images.length files →
      ∃ bs, partitionFrames images files = Except.ok bs ∧
        (bs.length : Int) =
          ceilDiv images.length (ceilDiv images.length files)) ∧
    (ceilDiv images.length files < 1 →
      partitionFrames images files =
        Except.error SpritifyError.invalidPartition) := by
  constructor
  · intro h1
    refine ⟨batches images (ceilDiv images.length files).toNat, ?_, ?_⟩
    · simp only [partitionFrames]
      rw [if_neg (by omega), if_neg (by omega)]
    · have hp0 : (ceilDiv images.length files).toNat ≠ 0 := by omega
      have h2 : ceilDiv images.length files =
        ((ceilDiv images.length files).toNat : Int) := by omega
      rw [batches_length _ _ hp0]
      conv_rhs => rw [h2]
      rw [ceilDiv_natCast _ _ hp0]
  · intro h2
    simp only [partitionFrames]
    rw [if_neg (by omega), if_pos (by omega)]

/-- C2 amended witness: six frames into four files, per_file = 2,
three batches = ceil(6/2). -/
theorem batch_count_eq_ceil_by_per_file_witness :
    (1 ≤ ceilDiv sixFrames.length 4 →
      ∃ bs, partitionFrames sixFrames 4 = Except.ok bs ∧
        (bs.length : Int) =
          ceilDiv sixFrames.length (ceilDiv sixFrames.length 4)) ∧
    (ceilDiv sixFrames.length 4 < 1 →
      partitionFrames sixFrames 4 =
        Except.error SpritifyError.invalidPartition) :=
  batch_count_eq_ceil_by_per_file sixFrames 4 (by decide) (by decide)

/-- C7: with N at least F at least 1 every emitted batch is non-empty,
every batch except possibly the final one has exactly
per_file = ceil(N/F) frames and none exceeds it; seventeen frames into
three files gives per_file = 6 and batch sizes 6, 6, 5. -/
theorem batch_size_invariants (images : List PyStr) (files : Int)
    (hF : 1 ≤ files) (hNF : files ≤ (images.length : Int)) :
    (∀ b ∈ batches images (ceilDiv images.length files).toNat, b ≠ []) ∧
    (∀ b ∈ (batches images (ceilDiv images.length files).toNat).dropLast,
      b.length = (ceilDiv images.length files).toNat) ∧
    (∀ b ∈ batches images (ceilDiv images.length files).toNat,
      b.length ≤ (ceilDiv images.length files).toNat) ∧
    ceilDiv 17 3 = 6 ∧
    (batches seventeenFrames 6).map List.length = [6, 6, 5] := by
  have hp : (ceilDiv images.length files).toNat ≠ 0 := by
    have := one_le_ceilDiv images.length files hF hNF
    omega
  refine ⟨fun b hb => batches_mem_ne_nil _ _ hp b hb,
    fun b hb => batches_dropLast_length _ _ hp b hb,
    fun b hb => batches_mem_length_le _ _ hp b hb,
    by decide, ?_⟩
  simp [batches, seventeenFrames]

/-- C7 witness: seventeen frames into three files. -/
theorem batch_size_invariants_witness :
    (∀ b ∈ batches seventeenFrames (ceilDiv seventeenFrames.length 3).toNat,
      b ≠ []) ∧
    (∀ b ∈ (batches seventeenFrames
        (ceilDiv seventeenFrames.length 3).toNat).dropLast,
      b.length = (ceilDiv seventeenFrames.length 3).toNat) ∧
    (∀ b ∈ batches seventeenFrames (ceilDiv seventeenFrames.length 3).toNat,
      b.length ≤ (ceilDiv seventeenFrames.length 3).toNat) ∧
    ceilDiv 17 3 = 6 ∧
    (batches seventeenFrames 6).map List.length = [6, 6, 5] :=
  batch_size_invariants seventeenFrames 3 (by decide) (by decide)

/-- Value of the geometry string at the claim C3 configuration: the
width and height slots hold Python floats, which print with a trailing
.0 even at integral values. -/
theorem geometry_fullhd_value :
    geometryString (renderWidth fullHD) (renderHeight fullHD) 2 2 =
      "1920.0x1080.0+2+2".data := by
  have hw : renderWidth fullHD = (1920 : ℚ) := by
    norm_num [renderWidth, fullHD]
  have hh : renderHeight fullHD = (1080 : ℚ) := by
    norm_num [renderHeight, fullHD]
  have hw2 : pyFloatStr (1920 : ℚ) = "1920.0".data := by
    rw [pyFloatStr, Rat.den_ofNat, Rat.num_ofNat]
    decide
  have hh2 : pyFloatStr (1080 : ℚ) = "1080.0".data := by
    rw [pyFloatStr, Rat.den_ofNat, Rat.num_ofNat]
    decide
  rw [geometryString, hw, hh, hw2, hh2]
  decide

/-- C3 as stated is false: the width and height the source interpolates
are Python floats, so the 1920x1080 geometry at offsets 2,2 is not the
integer-formatted string. -/
theorem geometry_string_counterexample :
    geometryString (renderWidth fullHD) (renderHeight fullHD) 2 2 ≠
      "1920x1080+2+2".data := by
  rw [geometry_fullhd_value]
  decide

/-- C3 amended: for the 1920x1080 render at 100 percent with no crop
and offsets 2,2, the geometry string is 1920.0x1080.0+2+2, the float
str forms of width and height joined with the offsets. -/
theorem geometry_string_fullhd_float :
    geometryString (renderWidth fullHD) (renderHeight fullHD) 2 2 =
      "1920.0x1080.0+2+2".data :=
  geometry_fullhd_value

/-- C10: for components in the unit interval, the background argument
is rgba( followed by the four components each multiplied by 100 (not
the raw values), joined by commas, then a closing parenthesis. -/
theorem background_components_scaled (r g b a : ℚ)
    (hr : 0 ≤ r ∧ r ≤ 1) (hg : 0 ≤ g ∧ g ≤ 1) (hb : 0 ≤ b ∧ b ≤ 1)
    (ha : 0 ≤ a ∧ a ≤ 1) :
    backgroundString r g b a = backgroundStringSpec r g b a := by
  simp [backgroundString, backgroundStringSpec, joinComma]

/-- C10 witness: the default fully transparent black background. -/
theorem background_components_scaled_witness :
    ((0 : ℚ) ≤ 0 ∧ (0 : ℚ) ≤ 1) ∧
    backgroundString 0 0 0 0 = backgroundStringSpec 0 0 0 0 :=
  ⟨by norm_num,
   background_components_scaled 0 0 0 0 (by norm_num) (by norm_num)
     (by norm_num) (by norm_num)⟩

/-- C5 as stated is false: when the walk yields directory a (holding
z.png) before directory b (holding a.png), the collected list is not
ordered lexicographically by filename over the whole list. -/
theorem collect_not_globally_sorted :
    collectFrames twoDirTree [] = ["a/z.png".data, "b/a.png".data] ∧
    collectFrameNames twoDirTree [] = ["z.png".data, "a.png".data] ∧
    ¬ List.Sorted (· ≤ ·) (collectFrameNames twoDirTree []) := by
  refine ⟨by decide, by decide, by decide⟩

/-- C5 amended: frame collection returns exactly the files whose names
end in the suffix pattern, with filenames sorted lexicographically
within each walked directory and directories in walk order, and for
every nonzero file count the collection-and-partition step fails with
FileNotFoundError iff the collected set is empty.  The file count is
taken nonzero because spritify.py:196 divides by it before the
emptiness check of line 200 runs: at zero, Python raises
ZeroDivisionError there instead, a path outside this embedding. -/
theorem collect_frames_characterization (tree : List WalkDir)
    (suffix : PyStr) :
    (∀ x, x ∈ collectFrames tree suffix ↔
      ∃ d ∈ tree, ∃ fn ∈ d.filenames,
        pyEndsWith fn (pngSuffix suffix) = true ∧
          x = pathJoin d.dirname fn) ∧
    (∀ d ∈ tree, List.Sorted (· ≤ ·) (dirFrameNames d suffix)) ∧
    (∀ files : Int, files ≠ 0 →
      (partitionFrames (collectFrames tree suffix) files =
          Except.error SpritifyError.noFramesFound ↔
        collectFrames tree suffix = [])) := by
  refine ⟨?_, ?_, ?_⟩
  · intro x
    simp only [collectFrames, dirFrameNames, pySorted, List.mem_flatMap,
      List.mem_map, List.mem_filter, List.mem_insertionSort]
    constructor
    · rintro ⟨d, hd, fn, ⟨hfn, hend⟩, rfl⟩
      exact ⟨d, hd, fn, hfn, hend, rfl⟩
    · rintro ⟨d, hd, fn, hfn, hend, rfl⟩
      exact ⟨d, hd, fn, ⟨hfn, hend⟩, rfl⟩
  · intro d hd
    exact List.Pairwise.filter _ (List.sorted_insertionSort _ _)
  · intro files hf
    rcases hcf : collectFrames tree suffix with _ | ⟨x, rest⟩
    · simp [partitionFrames]
    · simp only [partitionFrames]
      rw [if_neg (by simp)]
      split
      · simp
      · simp

/-- C6: after the external invocation only the existence of the
expected artifact decides the outcome: a missing artifact yields the
returned error dictionary, a present one the message dictionary, and
the tool exit code never changes either operation's outcome. -/
theorem outcome_ignores_exit_code (code code2 : Int) (ok : Bool)
    (dest : PyStr) :
    spritifyOutcome code ok dest = spritifyOutcome code2 ok dest ∧
    gififyOutcome code ok dest = gififyOutcome code2 ok dest ∧
    ((spritifyOutcome code ok dest).isError = true ↔ ok = false) ∧
    ((gififyOutcome code ok dest).isError = true ↔ ok = false) := by
  cases ok <;> simp [spritifyOutcome, gififyOutcome, RunResult.isError]

/-- C4 fails on the code: on a listing holding two eligible frame
files, the staging loop moves only the first into the scratch
directory and breaks, leaving the second, itself an eligible PNG,
behind in the render output directory. -/
theorem staging_moves_only_first_png :
    stageFrames twoFrameListing =
      ([⟨"0002.png".data, true⟩], ["0001.png".data],
        some "0001.png".data) ∧
    stagingSkip "0002.png".data = false := by
  refine ⟨by decide, by decide⟩

/-- C8 fails on the code: the one convert invocation passes the
computed delay, dispose, loop, glob source and destination arguments,
but its program slot holds the scratch directory path, not the
resolved convert binary, which the call never references. -/
theorem gifify_call_program_is_scratch_dir :
    (gififyRun gifEnvEx).1 =
      [["/renders/spritify".data, "-delay".data, "1x24".data,
        "-dispose".data, "background".data, "-loop".data, "0".data,
        "/renders/frame_*".data, "/out/sprites.gif".data]] ∧
    converterPath gifEnvEx = "/usr/bin/convert".data ∧
    "/renders/spritify".data ≠ converterPath gifEnvEx := by
  refine ⟨by decide, by decide, by decide⟩

/-- C9: when the resolved binary path is not a file, each operation
fails with FileNotFoundError before issuing any external call: the
montage loop stops on its first iteration having made no call, and
the gifify run raises with its call list empty. -/
theorem tool_not_found_before_any_call (s : SheetSettings)
    (suffix geometry background : PyStr) (index : Nat)
    (bs : List (List PyStr)) (hbs : bs ≠ []) (e : GifEnv)
    (he : e.converter_is_file = false) :
    runMontageLoop s false suffix geometry background index bs =
      ([], some SpritifyError.toolNotFound) ∧
    gififyRun e = ([], GifOutcome.raised SpritifyError.toolNotFound) := by
  constructor
  · cases bs with
    | nil => exact absurd rfl hbs
    | cons b rest => simp [runMontageLoop]
  · simp [gififyRun, he]

/-- C9 witness: a missing montage binary over one pending batch, and a
gifify environment whose convert path is not a file. -/
theorem tool_not_found_before_any_call_witness :
    runMontageLoop sheetEx false [] "1920.0x1080.0+2+2".data
      "rgba(0.0,0.0,0.0,0.0)".data 0 [["f1".data]] =
      ([], some SpritifyError.toolNotFound) ∧
    gififyRun gifEnvNoTool =
      ([], GifOutcome.raised SpritifyError.toolNotFound) :=
  tool_not_found_before_any_call sheetEx [] "1920.0x1080.0+2+2".data
    "rgba(0.0,0.0,0.0,0.0)".data 0 [["f1".data]] (by decide)
    gifEnvNoTool (by decide)

end Spritify
